import Mathlib

/-!
Shallow embedding of `src/webhook_receiver.py` (micro-atlas-webhook).

The pipeline: channel adapters (SMS / WebClip / Email) validate raw request
data, build a content string, enrich it with three OpenAI chat calls
(summary, sentiment, keywords), and persist the note to PostgreSQL.

Modelling conventions:
* Python strings are Lean `String`; absent form/JSON fields are `Option.none`
  (a JSON `null` is also modelled as `none`).
* Python string operations used by the source (`str.strip`, `str.split(',')`,
  `str.replace`, `','.join`) are re-implemented structurally over `List Char`
  so that concrete evaluation reduces in the kernel.  The whitespace class is
  the ASCII part of Python's: space, tab, LF, CR, VT, FF.
* The OpenAI client is an oracle `ChatRequest → Except String String`:
  `.ok body` is a successful completion (the message content),
  `.error e` is a raised exception whose `str(e)` is `e`.
* The database layer is a `DbEnv` describing the outcome of the fallible
  operations of one `save_note_to_database` call: connection acquisition
  (`psycopg2.connect` returning a connection or the helper returning `None`),
  `cur.execute` + `cur.fetchone()[0]` (which may raise a `psycopg2.Error` or
  any other exception), and `conn.commit()`.  Cleanup operations
  (`conn.rollback`, `cur.close`, `conn.close`) and `conn.cursor()` on a
  freshly opened connection are modelled as non-failing.
* An unhandled Python exception escaping a Flask handler is modelled as
  `Except.error msg` (Flask would turn it into a generic 500 response);
  a normal return is `Except.ok result`.
-/

/-- ASCII whitespace as stripped by Python's `str.strip()`. -/
def isPyWs (c : Char) : Bool :=
  c = ' ' || c = '\t' || c = '\n' || c = '\r' || c = '\x0b' || c = '\x0c'

/-- Drop leading whitespace characters. -/
def dropLeadingWs : List Char → List Char
  | [] => []
  | c :: rest => if isPyWs c then dropLeadingWs rest else c :: rest

/-- `str.strip()` on the character list: drop leading and trailing whitespace. -/
def pyStripChars (l : List Char) : List Char :=
  (dropLeadingWs (dropLeadingWs l).reverse).reverse

/-- Python `s.strip()`. -/
def pyStrip (s : String) : String := String.mk (pyStripChars s.data)

/-- Python `s.split(',')` on the character list: split at every comma,
keeping empty pieces. -/
def splitCommaChars : List Char → List (List Char)
  | [] => [[]]
  | c :: rest =>
    if c = ',' then [] :: splitCommaChars rest
    else
      match splitCommaChars rest with
      | [] => [[c]]
      | p :: ps => (c :: p) :: ps

/-- Python `s.split(',')`. -/
def pySplitComma (s : String) : List String :=
  (splitCommaChars s.data).map String.mk

/-- Python `','.join(xs)`. -/
def joinComma : List String → String
  | [] => ""
  | [x] => x
  | x :: xs => x ++ "," ++ joinComma xs

/-- `k.replace("\"", "\\\"")` on the character list: put a backslash before
every double quote. -/
def escapeQuotes : List Char → List Char
  | [] => []
  | c :: rest =>
    if c = '"' then '\\' :: '"' :: escapeQuotes rest
    else c :: escapeQuotes rest

example : pyStrip "  ml " = "ml" := by decide
example : pySplitComma "a,,b" = ["a", "", "b"] := by decide
example : String.mk (escapeQuotes ("a\"b").data) = "a\\\"b" := by decide

/-- One `openai.chat.completions.create` invocation, as built by
`get_ai_analysis` (lines 129-137 of the source): the model name, the system
message, the user prompt, the sampling temperature and the token cap. -/
structure ChatRequest where
  model : String
  system : String
  user : String
  temperature : ℚ
  max_tokens : Nat
deriving DecidableEq

/-- The user prompt `get_ai_analysis` builds for each `prompt_type`
(lines 95-125 of the source).  An unknown `prompt_type` leaves
`user_prompt = ""`. -/
def mkUserPrompt (text_input prompt_type : String) : String :=
  if prompt_type = "summary" then
    "Summarize the following text concisely:\n\n" ++ text_input
  else if prompt_type = "sentiment" then
    "What is the sentiment of the following text (positive, negative, neutral)? Just provide the sentiment word.\n\n" ++ text_input
  else if prompt_type = "keywords" then
    "Extract 5-10 key keywords from the following text, separated by commas. Only provide the keywords.\n\n" ++ text_input
  else if prompt_type = "full_analysis_prompt" then
    "\nYou are an expert knowledge curator and cognitive cartographer, helping individuals map their learning journey.\n" ++
    "Your task is to analyze the following unstructured text, which describes a user's recent learning, consumption, or project experiences.\n" ++
    "From this text, you need to extract and categorize the following key elements of their knowledge landscape:\n\n" ++
    "1.  **Core Concepts & Topics:** Identify the main subject matters or abstract ideas discussed.\n" ++
    "2.  **Key Skills & Technologies:** List any specific practical abilities or tools (e.g., programming languages, software, methodologies) mentioned or clearly implied as being used or learned.\n" ++
    "3.  **Cross-Cutting Competencies:** Identify broader, transferable skills demonstrated (e.g., Problem Solving, Data Analysis, Communication, Project Management, Critical Thinking, Leadership, User Research).\n" ++
    "4.  **Noteworthy Connections & Insights:** Describe any explicit or implicit relationships you find between the concepts, skills, or competencies. This is where you connect disparate pieces of learning.\n\n" ++
    "**Instructions for Formatting the Output:**\n" ++
    "- Use clear, concise language.\n" ++
    "- Format each section with a bold heading.\n" ++
    "- Use bullet points for each item within a section.\n" ++
    "- For \"Core Concepts & Topics,\" provide a very brief, 1-sentence explanation if necessary.\n" ++
    "- For \"Noteworthy Connections & Insights,\" explain *how* different elements are related.\n\n" ++
    "---\n" ++
    "User's Learning Content to Analyze:\n" ++
    "\"" ++ text_input ++ "\"\n" ++
    "---\n"
  else ""

/-- The full chat request `get_ai_analysis` issues: hard-coded model
`"gpt-3.5-turbo"`, system message `"You are a helpful AI assistant."`,
`temperature=0.7`, `max_tokens=500`. -/
def mkChatRequest (text_input prompt_type : String) : ChatRequest :=
  { model := "gpt-3.5-turbo"
    system := "You are a helpful AI assistant."
    user := mkUserPrompt text_input prompt_type
    temperature := 7/10
    max_tokens := 500 }

/-- `get_ai_analysis(text_input, prompt_type)` (lines 89-141): issue the chat
request to the oracle; on success return the stripped message content, on any
exception `e` return the string `"Error: " ++ str(e)`. -/
def get_ai_analysis (oracle : ChatRequest → Except String String)
    (text_input prompt_type : String) : String :=
  match oracle (mkChatRequest text_input prompt_type) with
  | .ok content => pyStrip content
  | .error e => "Error: " ++ e

/-- `parse_keywords_response(response_text)` (lines 144-147):
`[k.strip() for k in response_text.split(',') if k.strip()]`. -/
def parse_keywords_response (response_text : String) : List String :=
  ((pySplitComma response_text).map pyStrip).filter (fun k => k != "")

/-- The PostgreSQL array literal built in `save_note_to_database`
(lines 59-61): each keyword has its double quotes backslash-escaped, is
wrapped in double quotes; the pieces are comma-joined and braced. -/
def keywords_pg_array (keywords : List String) : String :=
  "\x7b" ++ joinComma (keywords.map
    (fun k => "\"" ++ String.mk (escapeQuotes k.data) ++ "\"")) ++ "\x7d"

/-- Outcome of `cur.execute(insert_query, ...)` followed by
`cur.fetchone()[0]`: the generated id, a `psycopg2.Error`, or any other
exception. -/
inductive DbCallResult where
  | ok : Nat → DbCallResult
  | dbError : String → DbCallResult
  | exn : String → DbCallResult
deriving DecidableEq

def DbCallResult.isOk : DbCallResult → Bool
  | .ok _ => true
  | _ => false

/-- Environment of one `save_note_to_database` call: whether
`get_supabase_connection()` yields a connection (it returns `None` on
failure), the outcome of the insert+fetch, and whether `conn.commit()`
succeeds. -/
structure DbEnv where
  connectOk : Bool
  executeResult : DbCallResult
  commitOk : Bool
deriving DecidableEq

/-- All database operations of one call succeed. -/
def dbHealthy (env : DbEnv) : Bool :=
  env.connectOk && env.executeResult.isOk && env.commitOk

/-- The parameter tuple bound by the parameterized INSERT
`(content, summary, sentiment, keywords, username, CURRENT_TIMESTAMP)`;
`keywords_pg` is the serialized array literal, `username` is `none` when the
Python value is `None` (SQL `NULL`). -/
structure InsertRow where
  content : String
  summary : String
  sentiment : String
  keywords_pg : String
  username : Option String
deriving DecidableEq

def mkInsertRow (content summary sentiment : String) (keywords : List String)
    (username : Option String) : InsertRow :=
  { content := content
    summary := summary
    sentiment := sentiment
    keywords_pg := keywords_pg_array keywords
    username := username }

/-- Observable outcome of `save_note_to_database`: the returned boolean,
whether a connection was opened, whether `conn.rollback()` ran, and the row
durably committed (none unless the commit succeeded). -/
structure DbOutcome where
  result : Bool
  connectionOpened : Bool
  rolledBack : Bool
  committedRow : Option InsertRow
deriving DecidableEq

/-- `save_note_to_database(content, summary, sentiment, keywords, username)`
(lines 48-86): returns `False` at once when no connection could be made;
otherwise serializes the keywords, runs the insert, and commits, rolling back
and returning `False` on a `psycopg2.Error` or any other exception from the
insert/fetch/commit; returns `True` after a successful commit. -/
def save_note_to_database (env : DbEnv) (content summary sentiment : String)
    (keywords : List String) (username : Option String) : DbOutcome :=
  if env.connectOk then
    match env.executeResult with
    | .dbError _ =>
      { result := false, connectionOpened := true, rolledBack := true,
        committedRow := none }
    | .exn _ =>
      { result := false, connectionOpened := true, rolledBack := true,
        committedRow := none }
    | .ok _ =>
      if env.commitOk then
        { result := true, connectionOpened := true, rolledBack := false,
          committedRow := some (mkInsertRow content summary sentiment keywords username) }
      else
        { result := false, connectionOpened := true, rolledBack := true,
          committedRow := none }
  else
    { result := false, connectionOpened := false, rolledBack := false,
      committedRow := none }

/-- Body of an HTTP response: a `jsonify(...)` object (ordered key/value
pairs of strings), a plain-text body, or a Twilio `MessagingResponse`
(TwiML) holding the given message. -/
inductive RespBody where
  | json : List (String × String) → RespBody
  | text : String → RespBody
  | twiml : String → RespBody
deriving DecidableEq

structure HttpResponse where
  status : Nat
  body : RespBody
deriving DecidableEq

/-- Result of one pipeline run, when the handler returns normally:
the HTTP response, the chat requests issued (in order), the argument rows of
`save_note_to_database` invocations, and the row durably committed by the
database. -/
structure PipelineResult where
  response : HttpResponse
  aiCalls : List ChatRequest
  dbCalls : List InsertRow
  persisted : Option InsertRow
deriving DecidableEq

/-- The `request.form` of `/sms`: the optional `From` and `Body` fields. -/
structure SmsForm where
  From : Option String
  Body : Option String
deriving DecidableEq

/-- `sms_webhook()` (lines 151-182): default `From` to `"Unknown"` and `Body`
to `""`; reject a whitespace-only body with 400; otherwise run the three AI
calls, parse the keywords, save with the sender number as username, and
answer with a TwiML reply (200 on save success, 500 on failure).  This
handler cannot raise. -/
def sms_webhook (oracle : ChatRequest → Except String String) (env : DbEnv)
    (form : SmsForm) : PipelineResult :=
  let sender_number := form.From.getD "Unknown"
  let message_body := form.Body.getD ""
  if pyStrip message_body = "" then
    { response := ⟨400, .json [("status", "error"), ("message", "Empty SMS body")]⟩,
      aiCalls := [], dbCalls := [], persisted := none }
  else
    let summary := get_ai_analysis oracle message_body "summary"
    let sentiment := get_ai_analysis oracle message_body "sentiment"
    let raw_keywords_response := get_ai_analysis oracle message_body "keywords"
    let keywords := parse_keywords_response raw_keywords_response
    let username_for_note := sender_number
    let outcome := save_note_to_database env message_body summary sentiment
      keywords (some username_for_note)
    let calls := [mkChatRequest message_body "summary",
      mkChatRequest message_body "sentiment",
      mkChatRequest message_body "keywords"]
    let row := mkInsertRow message_body summary sentiment keywords
      (some username_for_note)
    if outcome.result then
      { response := ⟨200, .twiml "Your SMS note has been processed and saved to Micro-Atlas! 🧠"⟩,
        aiCalls := calls, dbCalls := [row], persisted := outcome.committedRow }
    else
      { response := ⟨500, .twiml "Failed to process your SMS note. Please try again."⟩,
        aiCalls := calls, dbCalls := [row], persisted := outcome.committedRow }

/-- The parsed JSON body of `/web_clip`: optional `url`, `text`, `username`
string fields (`none` for an absent key or JSON `null`). -/
structure WebClipJson where
  url : Option String
  text : Option String
  username : Option String
deriving DecidableEq

/-- The 400 response for missing `url`/`text` in `web_clip_webhook`. -/
def webClipMissing400 : PipelineResult :=
  { response := ⟨400, .json [("error", "Missing 'url' or 'text' in request body")]⟩,
    aiCalls := [], dbCalls := [], persisted := none }

/-- `web_clip_webhook()` (lines 185-223): 400 unless the request is JSON;
default a falsy `username` to `"unknown_web_clipper"`; then evaluate
`not clipped_url or not clipped_text.strip()` — when `url` is truthy but
`text` is absent (`None`), `clipped_text.strip()` raises `AttributeError`,
which escapes the handler (`Except.error`).  Valid input is formatted as
`"Web Clip from {url}:\n\n{text}"`, enriched, and saved. -/
def web_clip_webhook (oracle : ChatRequest → Except String String)
    (env : DbEnv) (is_json : Bool) (data : WebClipJson) :
    Except String PipelineResult :=
  if is_json then
    let username_for_note :=
      match data.username with
      | none => "unknown_web_clipper"
      | some u => if u = "" then "unknown_web_clipper" else u
    match data.url with
    | none => .ok webClipMissing400
    | some clipped_url =>
      if clipped_url = "" then .ok webClipMissing400
      else
        match data.text with
        | none =>
          .error "AttributeError: 'NoneType' object has no attribute 'strip'"
        | some clipped_text =>
          if pyStrip clipped_text = "" then .ok webClipMissing400
          else
            let full_content :=
              "Web Clip from " ++ clipped_url ++ ":\n\n" ++ clipped_text
            let summary := get_ai_analysis oracle full_content "summary"
            let sentiment := get_ai_analysis oracle full_content "sentiment"
            let raw_keywords_response :=
              get_ai_analysis oracle full_content "keywords"
            let keywords := parse_keywords_response raw_keywords_response
            let outcome := save_note_to_database env full_content summary
              sentiment keywords (some username_for_note)
            let calls := [mkChatRequest full_content "summary",
              mkChatRequest full_content "sentiment",
              mkChatRequest full_content "keywords"]
            let row := mkInsertRow full_content summary sentiment keywords
              (some username_for_note)
            if outcome.result then
              .ok { response := ⟨200, .json [("message", "Web clip received and saved!")]⟩,
                    aiCalls := calls, dbCalls := [row],
                    persisted := outcome.committedRow }
            else
              .ok { response := ⟨500, .json [("error", "Failed to save web clip")]⟩,
                    aiCalls := calls, dbCalls := [row],
                    persisted := outcome.committedRow }
  else
    .ok { response := ⟨400, .json [("error", "Request must be JSON")]⟩,
          aiCalls := [], dbCalls := [], persisted := none }

/-- Modelled from the spec: a store-compatible deserializer for the
PostgreSQL text array literal (the store-side parsing is not part of
`src/`).  Reads the body of one double-quoted element, honouring the
backslash escape; returns the element's characters and the remainder after
the closing quote. -/
def pgReadQuotedBody : List Char → Option (List Char × List Char)
  | [] => none
  | '\\' :: c :: rest =>
    match pgReadQuotedBody rest with
    | none => none
    | some (s, r) => some (c :: s, r)
  | '"' :: rest => some ([], rest)
  | c :: rest =>
    match pgReadQuotedBody rest with
    | none => none
    | some (s, r) => some (c :: s, r)

/-- Modelled from the spec: read one or more comma-separated double-quoted
elements followed by the closing brace.  `fuel` bounds the recursion. -/
def pgReadElems : Nat → List Char → Option (List String)
  | 0, _ => none
  | fuel + 1, chars =>
    match chars with
    | '"' :: rest =>
      match pgReadQuotedBody rest with
      | some (elemChars, '\x7d' :: []) => some [String.mk elemChars]
      | some (elemChars, ',' :: more) =>
        match pgReadElems fuel more with
        | some elems => some (String.mk elemChars :: elems)
        | none => none
      | _ => none
    | _ => none

/-- Modelled from the spec: deserialize a braced, comma-joined,
double-quoted-and-escaped array literal back to the element sequence. -/
def pgDeserialize (s : String) : Option (List String) :=
  match s.data with
  | '\x7b' :: rest =>
    match rest with
    | '\x7d' :: [] => some []
    | _ => pgReadElems (rest.length + 1) rest
  | _ => none

/-- The `request.form` of `/email_inbound`: optional `sender`, `subject`,
`body-plain` fields. -/
structure EmailForm where
  sender : Option String
  subject : Option String
  body_plain : Option String
deriving DecidableEq

/-- `receive_email()` (lines 226-257): `body_plain.strip()` raises
`AttributeError` when `body-plain` is absent (`None`); a whitespace-only body
is rejected with 400 `"Missing email body"`.  Otherwise the content is
`"Subject: {subject}\n\n{body_plain}"` when `subject` is truthy, else
`body_plain`; the note is enriched and saved with `sender` (possibly `None`)
as the username. -/
def receive_email (oracle : ChatRequest → Except String String) (env : DbEnv)
    (form : EmailForm) : Except String PipelineResult :=
  let sender := form.sender
  let subject := form.subject
  match form.body_plain with
  | none =>
    .error "AttributeError: 'NoneType' object has no attribute 'strip'"
  | some body_plain =>
    if pyStrip body_plain = "" then
      .ok { response := ⟨400, .text "Missing email body"⟩,
            aiCalls := [], dbCalls := [], persisted := none }
    else
      let full_content :=
        match subject with
        | none => body_plain
        | some s =>
          if s = "" then body_plain
          else "Subject: " ++ s ++ "\n\n" ++ body_plain
      let summary := get_ai_analysis oracle full_content "summary"
      let sentiment := get_ai_analysis oracle full_content "sentiment"
      let raw_keywords_response := get_ai_analysis oracle full_content "keywords"
      let keywords := parse_keywords_response raw_keywords_response
      let outcome := save_note_to_database env full_content summary sentiment
        keywords sender
      let calls := [mkChatRequest full_content "summary",
        mkChatRequest full_content "sentiment",
        mkChatRequest full_content "keywords"]
      let row := mkInsertRow full_content summary sentiment keywords sender
      if outcome.result then
        .ok { response := ⟨200, .text "Email received and saved!"⟩,
              aiCalls := calls, dbCalls := [row],
              persisted := outcome.committedRow }
      else
        .ok { response := ⟨500, .text "Error saving email"⟩,
              aiCalls := calls, dbCalls := [row],
              persisted := outcome.committedRow }

/-- Fixture: an oracle whose every call succeeds with the completion
`" ml, ai "`. -/
def oracleOk : ChatRequest → Except String String :=
  fun _ => .ok " ml, ai "

/-- Fixture: an oracle for the body `"hi"` whose sentiment call raises
`"quota exceeded"` while the summary and keywords calls succeed. -/
def oracleSentFail : ChatRequest → Except String String :=
  fun r =>
    if r.user = mkUserPrompt "hi" "sentiment" then .error "quota exceeded"
    else if r.user = mkUserPrompt "hi" "keywords" then .ok " ml, ai "
    else .ok "A greeting."

/-- Fixture: every database operation succeeds, the insert returns id 7. -/
def envOk : DbEnv := { connectOk := true, executeResult := .ok 7, commitOk := true }

/-- Fixture: connection acquisition fails. -/
def envNoConn : DbEnv := { connectOk := false, executeResult := .ok 7, commitOk := true }

/-- Fixture: the insert raises a `psycopg2.Error`. -/
def envExecDbErr : DbEnv := { connectOk := true, executeResult := .dbError "unique violation", commitOk := true }

/-- Fixture: the insert raises a non-database exception. -/
def envExecExn : DbEnv := { connectOk := true, executeResult := .exn "TypeError", commitOk := true }

/-- Fixture: the commit fails. -/
def envCommitFail : DbEnv := { connectOk := true, executeResult := .ok 7, commitOk := false }

theorem save_note_healthy (env : DbEnv) (h : dbHealthy env = true)
    (content summary sentiment : String) (keywords : List String)
    (username : Option String) :
    save_note_to_database env content summary sentiment keywords username =
      { result := true, connectionOpened := true, rolledBack := false,
        committedRow := some (mkInsertRow content summary sentiment keywords username) } := by
  unfold dbHealthy at h
  simp only [Bool.and_eq_true] at h
  obtain ⟨⟨h1, h2⟩, h3⟩ := h
  unfold save_note_to_database
  cases he : env.executeResult with
  | ok n => simp [h1, h3, he]
  | dbError m => rw [he] at h2; simp [DbCallResult.isOk] at h2
  | exn m => rw [he] at h2; simp [DbCallResult.isOk] at h2

/-- C2: `save_note_to_database` returns `false` with no connection opened and
no row written when connection acquisition fails; on a database-layer error
or any other exception during the insert/fetch/commit it rolls back and
returns `false` with no row committed; and it returns `true` exactly when
connection, insert and commit all succeed, in which case the inserted row is
committed. -/
theorem save_note_to_database_contract (env : DbEnv)
    (content summary sentiment : String) (keywords : List String)
    (username : Option String) :
    ((save_note_to_database env content summary sentiment keywords username).result
        = dbHealthy env) ∧
    ((save_note_to_database env content summary sentiment keywords username).connectionOpened
        = env.connectOk) ∧
    ((save_note_to_database env content summary sentiment keywords username).rolledBack
        = (env.connectOk && !(env.executeResult.isOk && env.commitOk))) ∧
    ((save_note_to_database env content summary sentiment keywords username).committedRow
        = if dbHealthy env
          then some (mkInsertRow content summary sentiment keywords username)
          else none) := by
  obtain ⟨c, e, k⟩ := env
  cases c <;> cases k <;> cases e <;>
    simp [save_note_to_database, dbHealthy, DbCallResult.isOk]

/-- C7: `parse_keywords_response` splits on commas, trims each piece,
discards empty pieces and preserves order with no case normalization and no
deduplication: `"ml, data ,  ,ai"` parses to `["ml", "data", "ai"]`, no
output ever contains the empty string, and `"AI, ai, AI"` keeps both cases
and the duplicate. -/
theorem parse_keywords_response_contract :
    parse_keywords_response "ml, data ,  ,ai" = ["ml", "data", "ai"] ∧
    (∀ response_text : String, "" ∉ parse_keywords_response response_text) ∧
    parse_keywords_response "AI, ai, AI" = ["AI", "ai", "AI"] := by
  refine ⟨by decide, ?_, by decide⟩
  intro s h
  simp only [parse_keywords_response, List.mem_filter] at h
  exact absurd h.2 (by decide)

/-- C8: serializing `["a\"b", "c"]` escapes the embedded double quote, wraps
each element in double quotes, joins with commas and bracket-braces the
result, and a store-compatible deserializer recovers the original
two-element sequence from that literal. -/
theorem keywords_pg_array_roundtrip :
    keywords_pg_array ["a\"b", "c"] = "\x7b\"a\\\"b\",\"c\"\x7d" ∧
    pgDeserialize "\x7b\"a\\\"b\",\"c\"\x7d" = some ["a\"b", "c"] :=
  ⟨by decide, by decide⟩

/-- C3 (code bug): a JSON WebClip request with `url` present but `text`
absent makes `clipped_text.strip()` raise `AttributeError`, which escapes the
handler instead of producing the documented 400; the missing-`url` and
whitespace-only-`text` cases do return the documented 400 body and invoke
neither enrichment nor persistence. -/
theorem web_clip_missing_text_attribute_error
    (oracle : ChatRequest → Except String String) (env : DbEnv) :
    web_clip_webhook oracle env true ⟨some "http://x", none, none⟩ =
      .error "AttributeError: 'NoneType' object has no attribute 'strip'" ∧
    web_clip_webhook oracle env true ⟨none, some "hello", none⟩ =
      .ok webClipMissing400 ∧
    web_clip_webhook oracle env true ⟨some "http://x", some " \t ", none⟩ =
      .ok webClipMissing400 ∧
    webClipMissing400.aiCalls = [] ∧
    webClipMissing400.dbCalls = [] ∧
    webClipMissing400.persisted = none ∧
    webClipMissing400.response =
      ⟨400, .json [("error", "Missing 'url' or 'text' in request body")]⟩ :=
  ⟨rfl, rfl, rfl, rfl, rfl, rfl, rfl⟩

/-- C4 (code bug): an email request with no `body-plain` field makes
`body_plain.strip()` raise `AttributeError`, which escapes the handler
instead of producing the documented 400; a whitespace-only `body-plain` does
return HTTP 400 with plain text `"Missing email body"` and invokes neither
enrichment nor persistence. -/
theorem email_missing_body_attribute_error
    (oracle : ChatRequest → Except String String) (env : DbEnv)
    (sender subject : Option String) :
    receive_email oracle env ⟨sender, subject, none⟩ =
      .error "AttributeError: 'NoneType' object has no attribute 'strip'" ∧
    receive_email oracle env ⟨sender, subject, some " \t "⟩ =
      .ok { response := ⟨400, .text "Missing email body"⟩,
            aiCalls := [], dbCalls := [], persisted := none } :=
  ⟨rfl, rfl⟩

theorem pyStrip_empty : pyStrip "" = "" := rfl

/-- C6: under a healthy database, an SMS whose body is non-empty after
trimming yields the 200 success reply, persists the body verbatim as content
and the `From` value (default `"Unknown"`) as username; an SMS whose body is
empty or whitespace-only (or absent, defaulting to `""`) yields HTTP 400 with
the documented JSON body and triggers no enrichment and no persistence. -/
theorem sms_pipeline_contract
    (oracle : ChatRequest → Except String String) (env : DbEnv)
    (From1 From2 From3 : Option String) (body1 body2 : String)
    (h1 : pyStrip body1 ≠ "") (h2 : pyStrip body2 = "")
    (henv : dbHealthy env = true) :
    (sms_webhook oracle env ⟨From1, some body1⟩).response =
      ⟨200, .twiml "Your SMS note has been processed and saved to Micro-Atlas! 🧠"⟩ ∧
    (sms_webhook oracle env ⟨From1, some body1⟩).persisted.map InsertRow.content =
      some body1 ∧
    (sms_webhook oracle env ⟨From1, some body1⟩).persisted.map InsertRow.username =
      some (some (From1.getD "Unknown")) ∧
    sms_webhook oracle env ⟨From2, some body2⟩ =
      { response := ⟨400, .json [("status", "error"), ("message", "Empty SMS body")]⟩,
        aiCalls := [], dbCalls := [], persisted := none } ∧
    sms_webhook oracle env ⟨From3, none⟩ =
      { response := ⟨400, .json [("status", "error"), ("message", "Empty SMS body")]⟩,
        aiCalls := [], dbCalls := [], persisted := none } := by
  refine ⟨?_, ?_, ?_, ?_, ?_⟩ <;>
    simp [sms_webhook, h1, h2, pyStrip_empty, save_note_healthy env henv, mkInsertRow]

theorem sms_pipeline_contract_witness :
    pyStrip "hi" ≠ "" ∧ pyStrip " \t " = "" ∧ dbHealthy envOk = true ∧
    ((sms_webhook oracleOk envOk ⟨some "+15551234", some "hi"⟩).response =
      ⟨200, .twiml "Your SMS note has been processed and saved to Micro-Atlas! 🧠"⟩ ∧
    (sms_webhook oracleOk envOk ⟨some "+15551234", some "hi"⟩).persisted.map InsertRow.content =
      some "hi" ∧
    (sms_webhook oracleOk envOk ⟨some "+15551234", some "hi"⟩).persisted.map InsertRow.username =
      some (some ((some "+15551234").getD "Unknown")) ∧
    sms_webhook oracleOk envOk ⟨none, some " \t "⟩ =
      { response := ⟨400, .json [("status", "error"), ("message", "Empty SMS body")]⟩,
        aiCalls := [], dbCalls := [], persisted := none } ∧
    sms_webhook oracleOk envOk ⟨some "u", none⟩ =
      { response := ⟨400, .json [("status", "error"), ("message", "Empty SMS body")]⟩,
        aiCalls := [], dbCalls := [], persisted := none }) :=
  ⟨by decide, by decide, by decide,
    sms_pipeline_contract oracleOk envOk (some "+15551234") none (some "u")
      "hi" " \t " (by decide) (by decide) (by decide)⟩

/-- C1: a failed AI call makes `get_ai_analysis` return `"Error: " ++ cause`
instead of raising; with only the sentiment call failing (summary and
keywords succeeding) and a healthy database, the SMS pipeline still persists
and reports success, the committed row carrying the real stripped summary,
the real parsed keywords, and `"Error: " ++ cause` as sentiment. -/
theorem ai_failure_isolation
    (oracle oracle2 : ChatRequest → Except String String) (env : DbEnv)
    (From : Option String) (body s kresp e t pt e2 : String)
    (hany : oracle2 (mkChatRequest t pt) = .error e2)
    (hbody : pyStrip body ≠ "")
    (hsum : oracle (mkChatRequest body "summary") = .ok s)
    (hsent : oracle (mkChatRequest body "sentiment") = .error e)
    (hkw : oracle (mkChatRequest body "keywords") = .ok kresp)
    (henv : dbHealthy env = true) :
    get_ai_analysis oracle2 t pt = "Error: " ++ e2 ∧
    (sms_webhook oracle env ⟨From, some body⟩).response.status = 200 ∧
    (sms_webhook oracle env ⟨From, some body⟩).persisted =
      some (mkInsertRow body (pyStrip s) ("Error: " ++ e)
        (parse_keywords_response (pyStrip kresp)) (some (From.getD "Unknown"))) := by
  refine ⟨?_, ?_, ?_⟩ <;>
    simp [get_ai_analysis, sms_webhook, hany, hbody, hsum, hsent, hkw,
      save_note_healthy env henv]

theorem ai_failure_isolation_witness :
    oracleSentFail (mkChatRequest "hi" "sentiment") = .error "quota exceeded" ∧
    pyStrip "hi" ≠ "" ∧
    oracleSentFail (mkChatRequest "hi" "summary") = .ok "A greeting." ∧
    oracleSentFail (mkChatRequest "hi" "keywords") = .ok " ml, ai " ∧
    dbHealthy envOk = true ∧
    (get_ai_analysis oracleSentFail "hi" "sentiment" = "Error: " ++ "quota exceeded" ∧
    (sms_webhook oracleSentFail envOk ⟨some "+15551234", some "hi"⟩).response.status = 200 ∧
    (sms_webhook oracleSentFail envOk ⟨some "+15551234", some "hi"⟩).persisted =
      some (mkInsertRow "hi" (pyStrip "A greeting.") ("Error: " ++ "quota exceeded")
        (parse_keywords_response (pyStrip " ml, ai "))
        (some ((some "+15551234").getD "Unknown")))) :=
  ⟨rfl, by decide, rfl, rfl, rfl,
    ai_failure_isolation oracleSentFail oracleSentFail envOk (some "+15551234")
      "hi" "A greeting." " ml, ai " "quota exceeded" "hi" "sentiment" "quota exceeded"
      rfl (by decide) rfl rfl rfl rfl⟩

/-- C5 (amended): under a healthy database, a valid WebClip request persists
content `"Web Clip from {url}:\n\n{text}"` and persists the payload username
when it is present and non-empty, the sentinel `"unknown_web_clipper"` when
it is absent or empty; a valid email request persists content
`"Subject: {subject}\n\n{bodyPlain}"` when `subject` is present and
non-empty, and `bodyPlain` alone when `subject` is absent or empty. -/
theorem content_username_formulas
    (oracle : ChatRequest → Except String String) (env : DbEnv)
    (u t u2 s2 bp : String) (sender : Option String)
    (hu : u ≠ "") (ht : pyStrip t ≠ "") (hu2 : u2 ≠ "") (hs2 : s2 ≠ "")
    (hbp : pyStrip bp ≠ "") (henv : dbHealthy env = true) :
    ((web_clip_webhook oracle env true ⟨some u, some t, some u2⟩).map
        (fun r => r.persisted.map (fun row => (row.content, row.username))) =
      .ok (some ("Web Clip from " ++ u ++ ":\n\n" ++ t, some u2))) ∧
    ((web_clip_webhook oracle env true ⟨some u, some t, none⟩).map
        (fun r => r.persisted.map InsertRow.username) =
      .ok (some (some "unknown_web_clipper"))) ∧
    ((web_clip_webhook oracle env true ⟨some u, some t, some ""⟩).map
        (fun r => r.persisted.map InsertRow.username) =
      .ok (some (some "unknown_web_clipper"))) ∧
    ((receive_email oracle env ⟨sender, some s2, some bp⟩).map
        (fun r => r.persisted.map InsertRow.content) =
      .ok (some ("Subject: " ++ s2 ++ "\n\n" ++ bp))) ∧
    ((receive_email oracle env ⟨sender, none, some bp⟩).map
        (fun r => r.persisted.map InsertRow.content) = .ok (some bp)) ∧
    ((receive_email oracle env ⟨sender, some "", some bp⟩).map
        (fun r => r.persisted.map InsertRow.content) = .ok (some bp)) := by
  refine ⟨?_, ?_, ?_, ?_, ?_, ?_⟩ <;>
    simp [web_clip_webhook, receive_email, hu, ht, hu2, hs2, hbp,
      save_note_healthy env henv, mkInsertRow, Except.map]

theorem content_username_formulas_witness :
    "http://a" ≠ "" ∧ pyStrip "hi" ≠ "" ∧ "alice" ≠ "" ∧ "Greetings" ≠ "" ∧
    pyStrip "hello" ≠ "" ∧ dbHealthy envOk = true ∧
    (((web_clip_webhook oracleOk envOk true ⟨some "http://a", some "hi", some "alice"⟩).map
        (fun r => r.persisted.map (fun row => (row.content, row.username))) =
      .ok (some ("Web Clip from " ++ "http://a" ++ ":\n\n" ++ "hi", some "alice"))) ∧
    ((web_clip_webhook oracleOk envOk true ⟨some "http://a", some "hi", none⟩).map
        (fun r => r.persisted.map InsertRow.username) =
      .ok (some (some "unknown_web_clipper"))) ∧
    ((web_clip_webhook oracleOk envOk true ⟨some "http://a", some "hi", some ""⟩).map
        (fun r => r.persisted.map InsertRow.username) =
      .ok (some (some "unknown_web_clipper"))) ∧
    ((receive_email oracleOk envOk ⟨some "x@y.z", some "Greetings", some "hello"⟩).map
        (fun r => r.persisted.map InsertRow.content) =
      .ok (some ("Subject: " ++ "Greetings" ++ "\n\n" ++ "hello"))) ∧
    ((receive_email oracleOk envOk ⟨some "x@y.z", none, some "hello"⟩).map
        (fun r => r.persisted.map InsertRow.content) = .ok (some "hello")) ∧
    ((receive_email oracleOk envOk ⟨some "x@y.z", some "", some "hello"⟩).map
        (fun r => r.persisted.map InsertRow.content) = .ok (some "hello"))) :=
  ⟨by decide, by decide, by decide, by decide, by decide, rfl,
    content_username_formulas oracleOk envOk "http://a" "hi" "alice" "Greetings"
      "hello" (some "x@y.z") (by decide) (by decide) (by decide) (by decide)
      (by decide) rfl⟩

/-- C5 (counterexample): the claim as stated fails on falsy-but-present
fields: a valid WebClip request whose payload `username` is the present
empty string persists the sentinel `"unknown_web_clipper"`, not the payload
username; and a valid email request whose `subject` is the present empty
string persists `bodyPlain` alone, not `"Subject: {subject}\n\n{bodyPlain}"`. -/
theorem content_username_formulas_counterexample :
    ((web_clip_webhook oracleOk envOk true ⟨some "http://a", some "hi", some ""⟩).map
        (fun r => r.persisted.map InsertRow.username) =
      .ok (some (some "unknown_web_clipper"))) ∧
    ("unknown_web_clipper" ≠ "") ∧
    ((receive_email oracleOk envOk ⟨some "x@y.z", some "", some "hello"⟩).map
        (fun r => r.persisted.map InsertRow.content) = .ok (some "hello")) ∧
    ("hello" ≠ "Subject: " ++ "" ++ "\n\n" ++ "hello") :=
  ⟨rfl, by decide, rfl, by decide⟩

/-- C9 (counterexample): the calls the code makes do not match the claim's
exact wording: the system role carries a trailing period
(`"You are a helpful AI assistant."`), and the summary instruction separates
the instruction from the content with `":\n\n"`, not `": "` as the spec's
template `"Summarize the following text concisely: {content}"` writes it. -/
theorem enrichment_call_parameters_counterexample :
    ((sms_webhook oracleOk envOk ⟨none, some "x"⟩).aiCalls.map ChatRequest.user).head? =
      some "Summarize the following text concisely:\n\nx" ∧
    "Summarize the following text concisely:\n\nx" ≠
      "Summarize the following text concisely: x" ∧
    ((sms_webhook oracleOk envOk ⟨none, some "x"⟩).aiCalls.map ChatRequest.system).head? =
      some "You are a helpful AI assistant." ∧
    "You are a helpful AI assistant." ≠ "You are a helpful AI assistant" :=
  ⟨rfl, by decide, rfl, by decide⟩

/-- C9 (amended): for a given content the enrichment stage makes exactly
three independent AI calls, one per analysis kind, each with the fixed
system role `"You are a helpful AI assistant."` (trailing period), a
kind-specific instruction followed by a blank line and the content
(summary: `"Summarize the following text concisely:\n\n{content}"`),
temperature 0.7, a 500-token response cap, and the fixed model identifier
`"gpt-3.5-turbo"` (hard-coded, not configurable). -/
theorem enrichment_call_parameters
    (oracle : ChatRequest → Except String String) (env : DbEnv)
    (From : Option String) (body : String) (hbody : pyStrip body ≠ "") :
    (sms_webhook oracle env ⟨From, some body⟩).aiCalls =
      [{ model := "gpt-3.5-turbo", system := "You are a helpful AI assistant.",
         user := "Summarize the following text concisely:\n\n" ++ body,
         temperature := 7/10, max_tokens := 500 },
       { model := "gpt-3.5-turbo", system := "You are a helpful AI assistant.",
         user := "What is the sentiment of the following text (positive, negative, neutral)? Just provide the sentiment word.\n\n" ++ body,
         temperature := 7/10, max_tokens := 500 },
       { model := "gpt-3.5-turbo", system := "You are a helpful AI assistant.",
         user := "Extract 5-10 key keywords from the following text, separated by commas. Only provide the keywords.\n\n" ++ body,
         temperature := 7/10, max_tokens := 500 }] := by
  simp [sms_webhook, hbody, apply_ite, mkChatRequest, mkUserPrompt]

theorem enrichment_call_parameters_witness :
    pyStrip "x" ≠ "" ∧
    (sms_webhook oracleOk envOk ⟨none, some "x"⟩).aiCalls =
      [{ model := "gpt-3.5-turbo", system := "You are a helpful AI assistant.",
         user := "Summarize the following text concisely:\n\n" ++ "x",
         temperature := 7/10, max_tokens := 500 },
       { model := "gpt-3.5-turbo", system := "You are a helpful AI assistant.",
         user := "What is the sentiment of the following text (positive, negative, neutral)? Just provide the sentiment word.\n\n" ++ "x",
         temperature := 7/10, max_tokens := 500 },
       { model := "gpt-3.5-turbo", system := "You are a helpful AI assistant.",
         user := "Extract 5-10 key keywords from the following text, separated by commas. Only provide the keywords.\n\n" ++ "x",
         temperature := 7/10, max_tokens := 500 }] :=
  ⟨by decide, enrichment_call_parameters oracleOk envOk none "x" (by decide)⟩

/-- C10: an email request with a non-empty `body-plain` but no `sender`
field passes validation and, under a healthy database, is persisted with a
null (`none`) username and an HTTP 200 reply — unlike SMS, which defaults a
missing `From` to `"Unknown"`, and WebClip, which defaults a missing
`username` to `"unknown_web_clipper"`. -/
theorem email_null_username
    (oracle : ChatRequest → Except String String) (env : DbEnv)
    (subj : Option String) (bp body1 u t : String)
    (hbp : pyStrip bp ≠ "") (hbody1 : pyStrip body1 ≠ "")
    (hu : u ≠ "") (ht : pyStrip t ≠ "") (henv : dbHealthy env = true) :
    ((receive_email oracle env ⟨none, subj, some bp⟩).map
        (fun r => (r.response.status, r.persisted.map InsertRow.username))) =
      .ok (200, some none) ∧
    ((sms_webhook oracle env ⟨none, some body1⟩).persisted.map InsertRow.username) =
      some (some "Unknown") ∧
    ((web_clip_webhook oracle env true ⟨some u, some t, none⟩).map
        (fun r => r.persisted.map InsertRow.username)) =
      .ok (some (some "unknown_web_clipper")) := by
  refine ⟨?_, ?_, ?_⟩ <;>
    simp [receive_email, sms_webhook, web_clip_webhook, hbp, hbody1, hu, ht,
      save_note_healthy env henv, mkInsertRow, Except.map]

theorem email_null_username_witness :
    pyStrip "hello" ≠ "" ∧ pyStrip "hi" ≠ "" ∧ "http://a" ≠ "" ∧
    pyStrip "clip" ≠ "" ∧ dbHealthy envOk = true ∧
    (((receive_email oracleOk envOk ⟨none, some "Greetings", some "hello"⟩).map
        (fun r => (r.response.status, r.persisted.map InsertRow.username))) =
      .ok (200, some none) ∧
    ((sms_webhook oracleOk envOk ⟨none, some "hi"⟩).persisted.map InsertRow.username) =
      some (some "Unknown") ∧
    ((web_clip_webhook oracleOk envOk true ⟨some "http://a", some "clip", none⟩).map
        (fun r => r.persisted.map InsertRow.username)) =
      .ok (some (some "unknown_web_clipper"))) :=
  ⟨by decide, by decide, by decide, by decide, rfl,
    email_null_username oracleOk envOk (some "Greetings") "hello" "hi"
      "http://a" "clip" (by decide) (by decide) (by decide) (by decide) rfl⟩
